import Mathlib

/-!
Verification of the masked multi-layer raster data model of `clsRasterData`
(repository RasterClass, file `src/clsRasterData.h`).

The repository ships only the class declaration header: the bodies of the
member functions under study (`_calculate_valid_positions_from_grid_data`,
`_mask_and_calculate_valid_positions`, `getValue`, `setValue`,
`getCoordinateByRowCol`, `getPositionByCoordinate`, `calculateStatistics`,
`updateStatistics`, `getStatistics`, `Copy`, the default constructor) are not
present under `src/`.  Those operations are therefore modelled from the
specification's words; each such definition carries a doc comment starting
with `Modelled from the spec:`.  The few inline bodies that do appear in the
header (the copy constructor, `getValidNumber`, the simple accessors) are
embedded from the source directly.

Numeric values (`T`, header doubles) are embedded as exact rationals `ℚ`;
grid and layer indices as `Int`/`Nat`.  The standard-deviation metric is
represented by its square (the population variance), because the exact
rational model cannot hold an irrational square root; every statement about
`STD = sqrt e` is phrased as `variance = e`, which is equivalent since both
sides of the square root are nonnegative reals and `sqrt` is injective there.
-/

namespace RasterClass

/-- Header table of a raster (`m_headers` in the source, a
`map<string, double>` with keys NROWS, NCOLS, CELLSIZE, XLLCENTER, YLLCENTER,
NODATA_VALUE, LAYERS).  Embedded as a structure with one field per mandatory
key; doubles become exact rationals. -/
structure Header where
  nrows : Nat
  ncols : Nat
  cellsize : ℚ
  xll : ℚ
  yll : ℚ
  nodata : ℚ
  nlyrs : Nat

/-- Raw rectangular input grid handed to a constructor: its own header plus a
value for every `(row, col)` of the full lattice (row 0 is the top row). -/
structure RawGrid where
  header : Header
  values : Nat → Nat → ℚ

/-- Per-layer statistics record (`m_statsMap` values in the source).
`variance` stands for the square of the STD metric, see the file header. -/
structure Stats where
  validnum : ℚ
  mean : ℚ
  minv : ℚ
  maxv : ℚ
  variance : ℚ
  rangev : ℚ

/-- Error kinds of the statistics query, from the specification's error
model (`UnknownMetric`, `LayerOutOfRange`). -/
inductive StatErr where
  | UnknownMetric : StatErr
  | LayerOutOfRange : StatErr

/-- State of one `clsRasterData<T>` instance, restricted to the observable
fields the specification talks about: header table, cell count `m_nCells`,
valid-cell position index `m_rasterPositionData`, layer count `m_nLyrs`,
layered storage `m_raster2DData` (one value list per layer, indexed by
compacted position), the statistics dirty flag `m_statisticsCalculated`
(true means the cache is up to date, false means dirty), and the statistics
cache `m_statsMap` (one record per layer). -/
structure clsRasterData where
  m_headers : Header
  m_nCells : Nat
  m_rasterPositionData : List (Int × Int)
  m_nLyrs : Nat
  m_raster2DData : List (List ℚ)
  m_statisticsCalculated : Bool
  m_statsMap : List Stats

/-- Modelled from the spec: `getCoordinateByRowCol(row, col)` (body absent
from `src/`) returns the cell-center world coordinate
`x = x0 + (col + 0.5) * cellSize`, `y = y0 + (rows - row - 0.5) * cellSize`
(row 0 is the top row, y increases upward). -/
def getCoordinateByRowCol (h : Header) (row col : Int) : ℚ × ℚ :=
  (h.xll + ((col : ℚ) + 1/2) * h.cellsize,
   h.yll + ((h.nrows : ℚ) - (row : ℚ) - 1/2) * h.cellsize)

/-- Modelled from the spec: `getPositionByCoordinate(x, y, header)` (body
absent from `src/`) is the inverse of `getCoordinateByRowCol`, floored to
integer cell indices; out-of-extent results are signalled by the sentinel
`(-1, -1)` rather than a hard failure. -/
def getPositionByCoordinate (h : Header) (x y : ℚ) : Int × Int :=
  let col : Int := ⌊(x - h.xll) / h.cellsize⌋
  let row : Int := ⌊((h.yll + (h.nrows : ℚ) * h.cellsize) - y) / h.cellsize⌋
  if 0 ≤ row ∧ row < (h.nrows : Int) ∧ 0 ≤ col ∧ col < (h.ncols : Int) then
    (row, col)
  else
    (-1, -1)

/-- Modelled from the spec: `_calculate_valid_positions_from_grid_data`
(body absent from `src/`) scans the subject grid row-major (increasing row,
then increasing column) and collects the `(row, col)` of every cell whose
value differs from the subject's own NODATA sentinel.  The open question on
floating tolerance is resolved by exact equality, which is exact in the
rational embedding. -/
def validPositions (g : RawGrid) : List (Int × Int) :=
  (List.range g.header.nrows).flatMap (fun r =>
    (List.range g.header.ncols).filterMap (fun c =>
      if g.values r c ≠ g.header.nodata then some ((r : Int), (c : Int))
      else none))

/-- Modelled from the spec: construction in mode 2 (`calcPositions = true`,
no mask or `useMaskExtent = false`); the Header Table keeps the subject's own
geometry, the position index is `validPositions`, `m_nCells` is its length,
and layered storage holds the compacted subject values.  The statistics
cache starts empty (not yet calculated). -/
def constructMode2 (g : RawGrid) : clsRasterData :=
  { m_headers := g.header
    m_nCells := (validPositions g).length
    m_rasterPositionData := validPositions g
    m_nLyrs := 1
    m_raster2DData := [(validPositions g).map (fun p => g.values p.1.toNat p.2.toNat)]
    m_statisticsCalculated := false
    m_statsMap := [] }

/-- Modelled from the spec: `_mask_and_calculate_valid_positions` in mode 3
(`calcPositions = true`, mask present, `useMaskExtent = true`; body absent
from `src/`).  The mask's geometry becomes authoritative: the Header Table
is copied from the mask except that the subject's own NODATA and layer count
are preserved; the position index is shared with the mask
(`m_storePositions = false` in the source, hence element-wise identical).
Each subject value is resolved by mapping the mask cell to world coordinates
with the mask's mapper and back to subject indices with the subject's own
mapper; positions outside the subject grid receive the default-fill value. -/
def constructMode3 (g : RawGrid) (mask : clsRasterData) (defaultValue : ℚ) :
    clsRasterData :=
  let hdr : Header :=
    { mask.m_headers with nodata := g.header.nodata, nlyrs := g.header.nlyrs }
  let pos := mask.m_rasterPositionData
  let vals := pos.map (fun p =>
    let xy := getCoordinateByRowCol mask.m_headers p.1 p.2
    let rc := getPositionByCoordinate g.header xy.1 xy.2
    if rc = (-1, -1) then defaultValue
    else g.values rc.1.toNat rc.2.toNat)
  { m_headers := hdr
    m_nCells := pos.length
    m_rasterPositionData := pos
    m_nLyrs := 1
    m_raster2DData := [vals]
    m_statisticsCalculated := false
    m_statsMap := [] }

/-- Modelled from the spec: `getPosition(row, col)` (body absent from
`src/`) resolves `(row, col)` to a compacted index through the inverse
lookup of the Valid-Cell Position Index, returning `-1` when the pair is not
present. -/
def getPosition (r : clsRasterData) (row col : Int) : Int :=
  match r.m_rasterPositionData.findIdx? (fun q => q = (row, col)) with
  | some i => (i : Int)
  | none => -1

/-- Modelled from the spec: `getValue(pos, lyr)` (body absent from `src/`)
reads through the inverse lookup and returns the instance's NODATA sentinel
when `(row, col)` is not present in the index. -/
def getValue (r : clsRasterData) (row col : Int) (lyr : Nat) : ℚ :=
  let pos := getPosition r row col
  if pos < 0 then r.m_headers.nodata
  else (r.m_raster2DData.getD (lyr - 1) []).getD pos.toNat r.m_headers.nodata

/-- Modelled from the spec: `setValue(pos, value, lyr)` (body absent from
`src/`) writes through the inverse lookup; when `(row, col)` is not in the
footprint the call is a no-op, otherwise the cell is overwritten and the
statistics cache is marked dirty (`m_statisticsCalculated := false`). -/
def setValue (r : clsRasterData) (row col : Int) (value : ℚ) (lyr : Nat) :
    clsRasterData :=
  let pos := getPosition r row col
  if pos < 0 then r
  else
    { r with
      m_raster2DData := r.m_raster2DData.set (lyr - 1)
        ((r.m_raster2DData.getD (lyr - 1) []).set pos.toNat value)
      m_statisticsCalculated := false }

/-- Accumulator of the single statistics pass: running count, sum,
sum-of-squares and, once a first value has been kept, the running min/max. -/
structure StatsAcc where
  cnt : Nat
  sum : ℚ
  sumsq : ℚ
  minmax : Option (ℚ × ℚ)

/-- One step of the statistics pass: values equal to NODATA are excluded,
every other value updates count, sum, sum-of-squares, min and max. -/
def statsStep (nodata : ℚ) (acc : StatsAcc) (v : ℚ) : StatsAcc :=
  if v = nodata then acc
  else
    { cnt := acc.cnt + 1
      sum := acc.sum + v
      sumsq := acc.sumsq + v * v
      minmax :=
        match acc.minmax with
        | none => some (v, v)
        | some (mn, mx) => some (min mn v, max mx v) }

/-- Modelled from the spec: the single pass of `compute(layer)` over all
compacted positions of one layer. -/
def statsFold (nodata : ℚ) (layer : List ℚ) : StatsAcc :=
  layer.foldl (statsStep nodata) ⟨0, 0, 0, none⟩

/-- Modelled from the spec: derivation of the per-layer statistics record
(`calculateStatistics` body absent from `src/`): mean = sum/count,
variance (the STD metric squared) = sumSq/count - mean², range = max - min;
when no value was kept (count zero) every metric is reported as the NODATA
sentinel and no division is performed. -/
def computeStats (nodata : ℚ) (layer : List ℚ) : Stats :=
  let acc := statsFold nodata layer
  match acc.minmax with
  | none => ⟨nodata, nodata, nodata, nodata, nodata, nodata⟩
  | some (mn, mx) =>
      let mean := acc.sum / (acc.cnt : ℚ)
      ⟨(acc.cnt : ℚ), mean, mn, mx, acc.sumsq / (acc.cnt : ℚ) - mean * mean,
       mx - mn⟩

/-- Recomputation of the whole statistics cache: one record per layer, and
the cache is marked up to date. -/
def recomputeStats (r : clsRasterData) : clsRasterData :=
  { r with
    m_statsMap := r.m_raster2DData.map (computeStats r.m_headers.nodata)
    m_statisticsCalculated := true }

/-- Modelled from the spec: `calculateStatistics` (body absent from `src/`)
recomputes lazily, only when the cache is not up to date. -/
def calculateStatistics (r : clsRasterData) : clsRasterData :=
  if r.m_statisticsCalculated then r else recomputeStats r

/-- Modelled from the spec: `updateStatistics` (body absent from `src/`)
forces a recompute, bypassing the cache regardless of the dirty state. -/
def updateStatistics (r : clsRasterData) : clsRasterData :=
  recomputeStats r

/-- ASCII upper-casing of one character code, used to embed the
case-insensitive metric-name match of `getStatistics`. -/
def upCode (n : Nat) : Nat :=
  if 97 ≤ n ∧ n ≤ 122 then n - 32 else n

/-- Normalised key of a metric name: the list of upper-cased character
codes.  Two strings match case-insensitively iff their normalised keys are
equal. -/
def normKey (s : String) : List Nat :=
  s.data.map (fun c => upCode c.toNat)

/-- List of the normalised keys of the six recognised metric names
(`VALID_CELLNUMBER`, `MEAN`, `MIN`, `MAX`, `STD`, `RANGE`). -/
def knownMetricKeys : List (List Nat) :=
  [normKey ("VALID_CELLNUMBER"), normKey ("MEAN"), normKey ("MIN"),
   normKey ("MAX"), normKey ("STD"), normKey ("RANGE")]

/-- Decision of whether a normalised key names a recognised metric. -/
def metricKnown (key : List Nat) : Bool :=
  knownMetricKeys.contains key

/-- Reading one metric out of a per-layer statistics record by normalised
key.  The STD entry is represented by its square (the variance), see the
file header. -/
def lookupMetric (key : List Nat) (st : Stats) : ℚ :=
  if key = normKey ("VALID_CELLNUMBER") then st.validnum
  else if key = normKey ("MEAN") then st.mean
  else if key = normKey ("MIN") then st.minv
  else if key = normKey ("MAX") then st.maxv
  else if key = normKey ("STD") then st.variance
  else st.rangev

/-- Modelled from the spec: `getStatistics(sindex, lyr)` (body absent from
`src/`): the metric name is matched case-insensitively; an unrecognised name
fails with `UnknownMetric` and an invalid layer number with
`LayerOutOfRange`, in both cases returning the instance state unchanged; a
valid query triggers the lazy recomputation and returns the cached metric
together with the possibly refreshed instance. -/
def getStatistics (r : clsRasterData) (sindex : String) (lyr : Int) :
    Except StatErr ℚ × clsRasterData :=
  let key := normKey sindex
  if metricKnown key then
    if 1 ≤ lyr ∧ lyr ≤ (r.m_nLyrs : Int) then
      let r2 := calculateStatistics r
      (Except.ok (lookupMetric key (r2.m_statsMap.getD (lyr.toNat - 1)
        ⟨0, 0, 0, 0, 0, 0⟩)), r2)
    else (Except.error StatErr.LayerOutOfRange, r)
  else (Except.error StatErr.UnknownMetric, r)

/-- Embedded from the source (inline body in `clsRasterData.h`):
`getValidNumber(lyr)` returns `getStatistics(STATS_RS_VALIDNUM, lyr)`; the
value component of the query is returned. -/
def getValidNumber (r : clsRasterData) (lyr : Int) : Except StatErr ℚ :=
  (getStatistics r ("VALID_CELLNUMBER") lyr).1

/-- Modelled from the spec: `_initialize_raster_class` and the default
constructor (bodies absent from `src/`), which set every member to its empty
initial state. -/
def initializeRasterClass : clsRasterData :=
  { m_headers := ⟨0, 0, 0, 0, 0, -9999, 1⟩
    m_nCells := 0
    m_rasterPositionData := []
    m_nLyrs := 1
    m_raster2DData := []
    m_statisticsCalculated := false
    m_statsMap := [] }

/-- Modelled from the spec: `Copy(orgraster)` (body absent from `src/`)
replaces the instance's header table, position index and layered storage
wholesale with copies of the source raster's. -/
def Copy (dest org : clsRasterData) : clsRasterData :=
  { dest with
    m_headers := org.m_headers
    m_nCells := org.m_nCells
    m_rasterPositionData := org.m_rasterPositionData
    m_nLyrs := org.m_nLyrs
    m_raster2DData := org.m_raster2DData
    m_statisticsCalculated := org.m_statisticsCalculated
    m_statsMap := org.m_statsMap }

/-- Embedded from the source (inline body in `clsRasterData.h`, lines
165-168): the copy constructor runs `_initialize_raster_class()` and then
`Copy(another)`. -/
def copyConstructor (another : clsRasterData) : clsRasterData :=
  Copy initializeRasterClass another

/-- Per the spec's words: default-constructing an instance and then calling
`Copy(r)` on it; the second definition of the refinement claim about the
copy constructor. -/
def defaultThenCopy (another : clsRasterData) : clsRasterData :=
  Copy initializeRasterClass another

/-- Strict row-major order on `(row, col)` pairs: increasing row, then
increasing column. -/
def rowMajorLt (p q : Int × Int) : Prop :=
  p.1 < q.1 ∨ (p.1 = q.1 ∧ p.2 < q.2)

theorem rowMajorLt_ne {p q : Int × Int} (h : rowMajorLt p q) : p ≠ q := by
  rintro rfl
  rcases h with h | ⟨-, h⟩ <;> exact lt_irrefl _ h

theorem validPositions_mem (g : RawGrid) (p : Int × Int) :
    p ∈ validPositions g ↔
      ∃ row col : Nat, row < g.header.nrows ∧ col < g.header.ncols ∧
        g.values row col ≠ g.header.nodata ∧ p = ((row : Int), (col : Int)) := by
  simp only [validPositions, List.mem_flatMap, List.mem_filterMap, List.mem_range]
  constructor
  · rintro ⟨r, hr, c, hc, hp⟩
    by_cases hv : g.values r c ≠ g.header.nodata
    · rw [if_pos hv] at hp
      exact ⟨r, c, hr, hc, hv, (Option.some_inj.mp hp).symm⟩
    · rw [if_neg hv] at hp
      cases hp
  · rintro ⟨row, col, hr, hc, hv, rfl⟩
    exact ⟨row, hr, col, hc, by rw [if_pos hv]⟩

theorem validPositions_pairwise (g : RawGrid) :
    (validPositions g).Pairwise rowMajorLt := by
  rw [validPositions, List.pairwise_flatMap]
  constructor
  · intro r _
    rw [List.pairwise_filterMap]
    refine (List.pairwise_lt_range _).imp ?_
    intro c c' hlt b hb b' hb'
    by_cases hv : g.values r c ≠ g.header.nodata
    · rw [if_pos hv] at hb
      by_cases hv' : g.values r c' ≠ g.header.nodata
      · rw [if_pos hv'] at hb'
        cases hb; cases hb'
        exact Or.inr ⟨rfl, by simpa using (Int.ofNat_lt.mpr hlt)⟩
      · rw [if_neg hv'] at hb'; cases hb'
    · rw [if_neg hv] at hb; cases hb
  · refine (List.pairwise_lt_range _).imp ?_
    intro r r' hlt x hx y hy
    rw [List.mem_filterMap] at hx hy
    obtain ⟨c, -, hc⟩ := hx
    obtain ⟨c', -, hc'⟩ := hy
    by_cases hv : g.values r c ≠ g.header.nodata
    · rw [if_pos hv] at hc
      by_cases hv' : g.values r' c' ≠ g.header.nodata
      · rw [if_pos hv'] at hc'
        cases hc; cases hc'
        exact Or.inl (by simpa using (Int.ofNat_lt.mpr hlt))
      · rw [if_neg hv'] at hc'; cases hc'
    · rw [if_neg hv] at hc; cases hc

theorem validPositions_nodup (g : RawGrid) : (validPositions g).Nodup :=
  (validPositions_pairwise g).imp fun h => rowMajorLt_ne h

/-- C1: in mode 2 (`calcPositions = true`, no mask or `useMaskExtent =
false`), the valid-cell position index is produced by one row-major scan
(strictly increasing in row-major order), contains exactly the cells whose
value differs from the raster's own NODATA sentinel, has no duplicate
`(row, col)` pair, and `m_nCells` equals its length. -/
theorem C1_mode2_valid_position_index (g : RawGrid) :
    (constructMode2 g).m_nCells = (constructMode2 g).m_rasterPositionData.length ∧
    (∀ p : Int × Int, p ∈ (constructMode2 g).m_rasterPositionData ↔
      ∃ row col : Nat, row < g.header.nrows ∧ col < g.header.ncols ∧
        g.values row col ≠ g.header.nodata ∧ p = ((row : Int), (col : Int))) ∧
    (constructMode2 g).m_rasterPositionData.Pairwise rowMajorLt ∧
    (constructMode2 g).m_rasterPositionData.Nodup :=
  ⟨rfl, fun p => validPositions_mem g p, validPositions_pairwise g,
   validPositions_nodup g⟩

/-- C2: in mode 3 (`calcPositions = true`, mask present, `useMaskExtent =
true`), the header table is copied from the mask except that the subject's
own NODATA value and layer count are preserved, the valid-cell position
index is element-wise identical to the mask's index, and any two rasters
built from different raw grids against the same mask have element-wise
identical position indexes. -/
theorem C2_mode3_mask_geometry (g1 g2 : RawGrid) (mask : clsRasterData)
    (d1 d2 : ℚ) :
    ((constructMode3 g1 mask d1).m_headers.nrows = mask.m_headers.nrows ∧
     (constructMode3 g1 mask d1).m_headers.ncols = mask.m_headers.ncols ∧
     (constructMode3 g1 mask d1).m_headers.cellsize = mask.m_headers.cellsize ∧
     (constructMode3 g1 mask d1).m_headers.xll = mask.m_headers.xll ∧
     (constructMode3 g1 mask d1).m_headers.yll = mask.m_headers.yll ∧
     (constructMode3 g1 mask d1).m_headers.nodata = g1.header.nodata ∧
     (constructMode3 g1 mask d1).m_headers.nlyrs = g1.header.nlyrs) ∧
    (constructMode3 g1 mask d1).m_rasterPositionData =
      mask.m_rasterPositionData ∧
    (constructMode3 g1 mask d1).m_rasterPositionData =
      (constructMode3 g2 mask d2).m_rasterPositionData :=
  ⟨⟨rfl, rfl, rfl, rfl, rfl, rfl, rfl⟩, rfl, rfl⟩

/-- C5: converting an in-range cell `(row, col)` to world coordinates with
`getCoordinateByRowCol` and converting the result back with
`getPositionByCoordinate` on the same header returns the original
`(row, col)`. -/
theorem C5_coordinate_roundtrip (h : Header) (row col : Int)
    (hs : 0 < h.cellsize) (hrow0 : 0 ≤ row) (hrow : row < (h.nrows : Int))
    (hcol0 : 0 ≤ col) (hcol : col < (h.ncols : Int)) :
    getPositionByCoordinate h (getCoordinateByRowCol h row col).1
      (getCoordinateByRowCol h row col).2 = (row, col) := by
  have hne : h.cellsize ≠ 0 := ne_of_gt hs
  have hhalf : ⌊(1/2 : ℚ)⌋ = 0 := by
    rw [Int.floor_eq_zero_iff]
    constructor <;> norm_num
  have hc : ((h.xll + ((col : ℚ) + 1/2) * h.cellsize) - h.xll) / h.cellsize
      = (col : ℚ) + 1/2 := by
    field_simp
    ring
  have hr : ((h.yll + (h.nrows : ℚ) * h.cellsize)
        - (h.yll + ((h.nrows : ℚ) - (row : ℚ) - 1/2) * h.cellsize)) / h.cellsize
      = (row : ℚ) + 1/2 := by
    field_simp
    ring
  simp only [getPositionByCoordinate, getCoordinateByRowCol]
  rw [hc, hr, Int.floor_int_add, Int.floor_int_add, hhalf, add_zero, add_zero,
    if_pos ⟨hrow0, hrow, hcol0, hcol⟩]

/-- Closed witness for C5 at a concrete header (3 rows, 3 columns, cell
size 1, lower-left corner at the origin) and the in-range cell (1, 2). -/
theorem C5_coordinate_roundtrip_witness :
    (0 : ℚ) < (Header.mk 3 3 1 0 0 (-9999) 1).cellsize ∧
    (0 : Int) ≤ 1 ∧ (1 : Int) < ((Header.mk 3 3 1 0 0 (-9999) 1).nrows : Int) ∧
    (0 : Int) ≤ 2 ∧ (2 : Int) < ((Header.mk 3 3 1 0 0 (-9999) 1).ncols : Int) ∧
    getPositionByCoordinate (Header.mk 3 3 1 0 0 (-9999) 1)
      (getCoordinateByRowCol (Header.mk 3 3 1 0 0 (-9999) 1) 1 2).1
      (getCoordinateByRowCol (Header.mk 3 3 1 0 0 (-9999) 1) 1 2).2 = (1, 2) :=
  ⟨by norm_num, by decide, by decide, by decide, by decide,
   C5_coordinate_roundtrip (Header.mk 3 3 1 0 0 (-9999) 1) 1 2 (by norm_num)
     (by decide) (by decide) (by decide) (by decide)⟩

/-- C6: `getCoordinateByRowCol(row, col)` returns the cell-center world
coordinate `x = x0 + (col + 0.5) * cellSize` and
`y = y0 + (rows - row - 0.5) * cellSize`, with `x0`, `y0`, `cellSize` and
`rows` taken from the instance's header table (row 0 is the top row and y
increases upward). -/
theorem C6_cell_center_formula (h : Header) (row col : Int) :
    getCoordinateByRowCol h row col =
      (h.xll + ((col : ℚ) + 1/2) * h.cellsize,
       h.yll + ((h.nrows : ℚ) - (row : ℚ) - 1/2) * h.cellsize) :=
  rfl

theorem getPosition_eq_neg_one_of_not_mem (r : clsRasterData) (row col : Int)
    (h : (row, col) ∉ r.m_rasterPositionData) : getPosition r row col = -1 := by
  unfold getPosition
  cases hf : r.m_rasterPositionData.findIdx? (fun q => q = (row, col)) with
  | none => rfl
  | some i =>
    exfalso
    rw [List.findIdx?_eq_some_iff_getElem] at hf
    obtain ⟨hlen, hp, -⟩ := hf
    apply h
    have heq : r.m_rasterPositionData[i] = (row, col) := by simpa using hp
    rw [← heq]
    exact List.getElem_mem hlen

theorem getPosition_nonneg_of_mem (r : clsRasterData) (row col : Int)
    (h : (row, col) ∈ r.m_rasterPositionData) : 0 ≤ getPosition r row col := by
  unfold getPosition
  cases hf : r.m_rasterPositionData.findIdx? (fun q => q = (row, col)) with
  | some i => simp
  | none =>
    exfalso
    rw [List.findIdx?_eq_none_iff] at hf
    have := hf _ h
    simp at this

theorem setValue_not_mem_eq (r : clsRasterData) (row col : Int) (v : ℚ)
    (lyr : Nat) (h : (row, col) ∉ r.m_rasterPositionData) :
    setValue r row col v lyr = r := by
  simp only [setValue]
  rw [getPosition_eq_neg_one_of_not_mem r row col h]
  norm_num

theorem setValue_mem_dirty (r : clsRasterData) (row col : Int) (v : ℚ)
    (lyr : Nat) (h : (row, col) ∈ r.m_rasterPositionData) :
    (setValue r row col v lyr).m_statisticsCalculated = false := by
  have h0 := getPosition_nonneg_of_mem r row col h
  simp only [setValue]
  rw [if_neg (by omega : ¬ getPosition r row col < 0)]

/-- Concrete 3×3 scenario grid of the spec: cell size 1, lower-left (0,0),
NODATA = -9999, values `[[1,2,3],[4,-9999,6],[7,8,9]]`. -/
def exampleValues : Nat → Nat → ℚ
  | 0, 0 => 1
  | 0, 1 => 2
  | 0, 2 => 3
  | 1, 0 => 4
  | 1, 1 => -9999
  | 1, 2 => 6
  | 2, 0 => 7
  | 2, 1 => 8
  | 2, 2 => 9
  | _, _ => -9999

/-- Raw input of the concrete 3×3 scenario. -/
def exampleGrid : RawGrid :=
  { header := ⟨3, 3, 1, 0, 0, -9999, 1⟩, values := exampleValues }

/-- Raster of the concrete 3×3 scenario, built in mode 2. -/
def exampleRaster : clsRasterData :=
  constructMode2 exampleGrid

theorem example_positions_eval :
    validPositions exampleGrid =
      [(0, 0), (0, 1), (0, 2), (1, 0), (1, 2), (2, 0), (2, 1), (2, 2)] := by
  norm_num [validPositions, exampleGrid, exampleValues, List.range_succ,
    List.filterMap_cons]

theorem example_layer_eval :
    exampleRaster.m_raster2DData = [[1, 2, 3, 4, 6, 7, 8, 9]] := by
  show [(validPositions exampleGrid).map _] = _
  rw [example_positions_eval]
  norm_num [exampleGrid, exampleValues]
  exact ⟨rfl, rfl, rfl, rfl, rfl⟩

theorem example_not_mem_55 :
    ((5 : Int), (5 : Int)) ∉ exampleRaster.m_rasterPositionData := by
  show ¬ _ ∈ validPositions exampleGrid
  rw [validPositions_mem]
  rintro ⟨row, col, hr, hc, -, heq⟩
  have h5 : (5 : Int) = (row : Int) := congrArg Prod.fst heq
  have : exampleGrid.header.nrows = 3 := rfl
  omega

/-- C3: for every raster with a computed valid-cell position index,
`getValue` at a `(row, col)` not present in the index returns the instance's
NODATA sentinel; in particular, `getValue` at (5, 5) on the 3×3 scenario
grid returns its NODATA value -9999. -/
theorem C3_getValue_out_of_footprint :
    (∀ (r : clsRasterData) (row col : Int) (lyr : Nat),
        (row, col) ∉ r.m_rasterPositionData →
        getValue r row col lyr = r.m_headers.nodata) ∧
    getValue exampleRaster 5 5 1 = -9999 := by
  have hgen : ∀ (r : clsRasterData) (row col : Int) (lyr : Nat),
      (row, col) ∉ r.m_rasterPositionData →
      getValue r row col lyr = r.m_headers.nodata := by
    intro r row col lyr hmem
    simp only [getValue]
    rw [getPosition_eq_neg_one_of_not_mem r row col hmem]
    norm_num
  refine ⟨hgen, ?_⟩
  rw [hgen exampleRaster 5 5 1 example_not_mem_55]
  rfl

/-- Closed witness for C3, applying it to the 3×3 scenario raster at the
out-of-extent position (5, 5). -/
theorem C3_getValue_out_of_footprint_witness :
    ((5 : Int), (5 : Int)) ∉ exampleRaster.m_rasterPositionData ∧
    getValue exampleRaster 5 5 1 = exampleRaster.m_headers.nodata :=
  ⟨example_not_mem_55,
   C3_getValue_out_of_footprint.1 exampleRaster 5 5 1 example_not_mem_55⟩

/-- C4: `setValue` at a `(row, col)` not present in the index is a complete
no-op (the whole instance state, hence every stored cell of every layer, the
`getValidNumber()` result, and the statistics cache dirty state, is
unchanged), while a successful write to an in-footprint cell marks the
statistics cache dirty. -/
theorem C4_setValue_out_of_footprint_noop :
    ∀ (r : clsRasterData) (row col : Int) (v : ℚ) (lyr : Nat) (l2 : Int),
      ((row, col) ∉ r.m_rasterPositionData →
        setValue r row col v lyr = r ∧
        (setValue r row col v lyr).m_raster2DData = r.m_raster2DData ∧
        getValidNumber (setValue r row col v lyr) l2 = getValidNumber r l2 ∧
        (setValue r row col v lyr).m_statisticsCalculated
          = r.m_statisticsCalculated) ∧
      ((row, col) ∈ r.m_rasterPositionData →
        (setValue r row col v lyr).m_statisticsCalculated = false) := by
  intro r row col v lyr l2
  constructor
  · intro hmem
    have heq := setValue_not_mem_eq r row col v lyr hmem
    exact ⟨heq, by rw [heq], by rw [heq], by rw [heq]⟩
  · intro hmem
    exact setValue_mem_dirty r row col v lyr hmem

/-- Small literal raster used by closed witnesses: one valid cell (0, 0). -/
def witRaster : clsRasterData :=
  { m_headers := ⟨2, 2, 1, 0, 0, -9999, 1⟩
    m_nCells := 1
    m_rasterPositionData := [(0, 0)]
    m_nLyrs := 1
    m_raster2DData := [[7]]
    m_statisticsCalculated := true
    m_statsMap := [⟨1, 7, 7, 7, 0, 0⟩] }

/-- Closed witness for C4: on the literal one-cell raster, writing at the
out-of-footprint (5, 5) is a no-op and writing at the in-footprint (0, 0)
marks the cache dirty. -/
theorem C4_setValue_out_of_footprint_noop_witness :
    ((5 : Int), (5 : Int)) ∉ witRaster.m_rasterPositionData ∧
    setValue witRaster 5 5 42 1 = witRaster ∧
    ((0 : Int), (0 : Int)) ∈ witRaster.m_rasterPositionData ∧
    (setValue witRaster 0 0 42 1).m_statisticsCalculated = false :=
  ⟨by decide,
   ((C4_setValue_out_of_footprint_noop witRaster 5 5 42 1 1).1 (by decide)).1,
   by decide,
   (C4_setValue_out_of_footprint_noop witRaster 0 0 42 1 1).2 (by decide)⟩

theorem foldl_statsStep_cnt (nd : ℚ) (l : List ℚ) (acc : StatsAcc) :
    (l.foldl (statsStep nd) acc).cnt
      = acc.cnt + (l.filter (fun v => v ≠ nd)).length := by
  induction l generalizing acc with
  | nil => simp
  | cons v t ih =>
    rw [List.foldl_cons, ih]
    by_cases hv : v = nd
    · simp [statsStep, hv, List.filter_cons]
    · simp only [statsStep, if_neg hv, List.filter_cons]
      simp [hv]
      omega

theorem foldl_statsStep_sum (nd : ℚ) (l : List ℚ) (acc : StatsAcc) :
    (l.foldl (statsStep nd) acc).sum
      = acc.sum + (l.filter (fun v => v ≠ nd)).sum := by
  induction l generalizing acc with
  | nil => simp
  | cons v t ih =>
    rw [List.foldl_cons, ih]
    by_cases hv : v = nd
    · simp [statsStep, hv, List.filter_cons]
    · simp only [statsStep, if_neg hv, List.filter_cons]
      simp [hv]
      ring

theorem foldl_statsStep_sumsq (nd : ℚ) (l : List ℚ) (acc : StatsAcc) :
    (l.foldl (statsStep nd) acc).sumsq
      = acc.sumsq + ((l.filter (fun v => v ≠ nd)).map (fun v => v * v)).sum := by
  induction l generalizing acc with
  | nil => simp
  | cons v t ih =>
    rw [List.foldl_cons, ih]
    by_cases hv : v = nd
    · simp [statsStep, hv, List.filter_cons]
    · simp only [statsStep, if_neg hv, List.filter_cons]
      simp [hv]
      ring

theorem statsStep_minmax_isSome (nd : ℚ) (acc : StatsAcc) (v : ℚ)
    (hv : v ≠ nd) : ∃ p, (statsStep nd acc v).minmax = some p := by
  rw [statsStep, if_neg hv]
  cases h : acc.minmax with
  | none => exact ⟨_, rfl⟩
  | some p =>
    obtain ⟨mn, mx⟩ := p
    refine ⟨(min mn v, max mx v), ?_⟩
    simp [h]

theorem foldl_statsStep_minmax_none (nd : ℚ) (l : List ℚ) (acc : StatsAcc) :
    (l.foldl (statsStep nd) acc).minmax = none ↔
      acc.minmax = none ∧ (l.filter (fun v => v ≠ nd)) = [] := by
  induction l generalizing acc with
  | nil => simp
  | cons v t ih =>
    rw [List.foldl_cons, ih]
    by_cases hv : v = nd
    · simp [statsStep, hv, List.filter_cons]
    · obtain ⟨p, hp⟩ := statsStep_minmax_isSome nd acc v hv
      simp [hp, List.filter_cons, hv]

theorem computeStats_of_minmax_none (nd : ℚ) (l : List ℚ)
    (h : (statsFold nd l).minmax = none) :
    computeStats nd l = ⟨nd, nd, nd, nd, nd, nd⟩ := by
  simp only [computeStats]
  rw [h]

theorem computeStats_of_minmax_some (nd : ℚ) (l : List ℚ) (mn mx : ℚ)
    (h : (statsFold nd l).minmax = some (mn, mx)) :
    computeStats nd l =
      ⟨((statsFold nd l).cnt : ℚ),
       (statsFold nd l).sum / ((statsFold nd l).cnt : ℚ),
       mn, mx,
       (statsFold nd l).sumsq / ((statsFold nd l).cnt : ℚ)
         - ((statsFold nd l).sum / ((statsFold nd l).cnt : ℚ))
           * ((statsFold nd l).sum / ((statsFold nd l).cnt : ℚ)),
       mx - mn⟩ := by
  simp only [computeStats]
  rw [h]

theorem statsFold_cnt (nd : ℚ) (l : List ℚ) :
    (statsFold nd l).cnt = (l.filter (fun v => v ≠ nd)).length := by
  rw [statsFold, foldl_statsStep_cnt]
  norm_num

theorem statsFold_sum (nd : ℚ) (l : List ℚ) :
    (statsFold nd l).sum = (l.filter (fun v => v ≠ nd)).sum := by
  rw [statsFold, foldl_statsStep_sum]
  norm_num

theorem statsFold_sumsq (nd : ℚ) (l : List ℚ) :
    (statsFold nd l).sumsq
      = ((l.filter (fun v => v ≠ nd)).map (fun v => v * v)).sum := by
  rw [statsFold, foldl_statsStep_sumsq]
  norm_num

theorem computeStats_of_cnt_zero (nd : ℚ) (l : List ℚ)
    (h : (statsFold nd l).cnt = 0) :
    computeStats nd l = ⟨nd, nd, nd, nd, nd, nd⟩ := by
  apply computeStats_of_minmax_none
  rw [statsFold, foldl_statsStep_minmax_none]
  refine ⟨rfl, ?_⟩
  rw [statsFold_cnt] at h
  exact List.eq_nil_of_length_eq_zero h

theorem example_stats_eval :
    computeStats (-9999) [1, 2, 3, 4, 6, 7, 8, 9] = ⟨8, 5, 1, 9, 15/2, 8⟩ := by
  norm_num [computeStats, statsFold, statsStep, List.foldl_cons,
    List.foldl_nil, min_def, max_def]

theorem example_statsMap_eval :
    (calculateStatistics exampleRaster).m_statsMap = [⟨8, 5, 1, 9, 15/2, 8⟩] := by
  have h1 : calculateStatistics exampleRaster = recomputeStats exampleRaster :=
    rfl
  rw [h1]
  show exampleRaster.m_raster2DData.map
    (computeStats exampleRaster.m_headers.nodata) = _
  rw [example_layer_eval]
  show [computeStats exampleRaster.m_headers.nodata [1, 2, 3, 4, 6, 7, 8, 9]] = _
  rw [show exampleRaster.m_headers.nodata = -9999 from rfl, example_stats_eval]

theorem example_nCells_eval : exampleRaster.m_nCells = 8 := by
  show (validPositions exampleGrid).length = 8
  rw [example_positions_eval]
  rfl

/-- Counterexample for C7: on the spec's own 3×3 scenario (mode 2,
NODATA = -9999), the claimed standard deviation `sqrt(52/8 - 25)` is wrong.
In the exact model STD is represented by its square, the variance; the claim
asserts the variance is `52/8 - 25`, but the computed variance of the eight
valid values is `15/2` (the sum of squares is 260, not 52), and
`15/2 ≠ 52/8 - 25`. -/
theorem C7_std_counterexample :
    ((calculateStatistics exampleRaster).m_statsMap.getD 0
        ⟨0, 0, 0, 0, 0, 0⟩).variance = 15/2 ∧
    ¬ ((calculateStatistics exampleRaster).m_statsMap.getD 0
        ⟨0, 0, 0, 0, 0, 0⟩).variance = 52/8 - 25 := by
  rw [example_statsMap_eval]
  norm_num

/-- C7 (amended): the statistics computation is a single accumulating pass
that excludes values equal to NODATA (its count, sum and sum-of-squares are
exactly those of the non-NODATA values); it derives mean = sum/count,
variance (the STD metric squared) = sumSq/count - mean² and
range = max - min; when the count of non-NODATA values is zero every metric
is reported as the NODATA sentinel; and on the 3×3 scenario grid in mode 2
the results are validCellCount = 8, mean = 5, min = 1, max = 9 and
variance = 260/8 - 25 = 15/2 (hence std = sqrt(260/8 - 25), not
sqrt(52/8 - 25)). -/
theorem C7_statistics_amended :
    (∀ (nd : ℚ) (layer : List ℚ),
      (statsFold nd layer).cnt = (layer.filter (fun v => v ≠ nd)).length ∧
      (statsFold nd layer).sum = (layer.filter (fun v => v ≠ nd)).sum ∧
      (statsFold nd layer).sumsq
        = ((layer.filter (fun v => v ≠ nd)).map (fun v => v * v)).sum ∧
      ((statsFold nd layer).cnt = 0 →
        computeStats nd layer = ⟨nd, nd, nd, nd, nd, nd⟩) ∧
      (∀ mn mx, (statsFold nd layer).minmax = some (mn, mx) →
        computeStats nd layer =
          ⟨((statsFold nd layer).cnt : ℚ),
           (statsFold nd layer).sum / ((statsFold nd layer).cnt : ℚ),
           mn, mx,
           (statsFold nd layer).sumsq / ((statsFold nd layer).cnt : ℚ)
             - ((statsFold nd layer).sum / ((statsFold nd layer).cnt : ℚ))
               * ((statsFold nd layer).sum / ((statsFold nd layer).cnt : ℚ)),
           mx - mn⟩)) ∧
    exampleRaster.m_nCells = 8 ∧
    (calculateStatistics exampleRaster).m_statsMap
      = [⟨8, 5, 1, 9, 260/8 - 25, 9 - 1⟩] := by
  refine ⟨?_, example_nCells_eval, ?_⟩
  · intro nd layer
    exact ⟨statsFold_cnt nd layer, statsFold_sum nd layer,
      statsFold_sumsq nd layer,
      computeStats_of_cnt_zero nd layer,
      fun mn mx h => computeStats_of_minmax_some nd layer mn mx h⟩
  · rw [example_statsMap_eval]
    norm_num

/-- Closed witness for C7 (amended): the zero-count branch at NODATA 0 on
the layer `[0]`, and the nonempty branch at the layer `[2]`. -/
theorem C7_statistics_amended_witness :
    ((statsFold 0 [(0 : ℚ)]).cnt = 0 ∧
      computeStats 0 [(0 : ℚ)] = ⟨0, 0, 0, 0, 0, 0⟩) ∧
    ((statsFold 0 [(2 : ℚ)]).minmax = some (2, 2) ∧
      computeStats 0 [(2 : ℚ)] =
        ⟨((statsFold 0 [(2 : ℚ)]).cnt : ℚ),
         (statsFold 0 [(2 : ℚ)]).sum / ((statsFold 0 [(2 : ℚ)]).cnt : ℚ),
         2, 2,
         (statsFold 0 [(2 : ℚ)]).sumsq / ((statsFold 0 [(2 : ℚ)]).cnt : ℚ)
           - ((statsFold 0 [(2 : ℚ)]).sum / ((statsFold 0 [(2 : ℚ)]).cnt : ℚ))
             * ((statsFold 0 [(2 : ℚ)]).sum / ((statsFold 0 [(2 : ℚ)]).cnt : ℚ)),
         2 - 2⟩) :=
  ⟨⟨by norm_num [statsFold, statsStep],
    ((C7_statistics_amended.1 0 [(0 : ℚ)]).2.2.2.1
      (by norm_num [statsFold, statsStep]))⟩,
   ⟨by norm_num [statsFold, statsStep],
    ((C7_statistics_amended.1 0 [(2 : ℚ)]).2.2.2.2 2 2
      (by norm_num [statsFold, statsStep]))⟩⟩

/-- C8: `getStatistics(sindex, lyr)` matches the metric name
case-insensitively (two names with the same upper-cased key give the same
result); an unrecognised metric name fails with `UnknownMetric`, an invalid
layer number with `LayerOutOfRange`, and in both error cases the instance
state is returned entirely unchanged. -/
theorem C8_getStatistics_errors :
    (∀ (r : clsRasterData) (s1 s2 : String) (lyr : Int),
        normKey s1 = normKey s2 →
        getStatistics r s1 lyr = getStatistics r s2 lyr) ∧
    (∀ (r : clsRasterData) (s : String) (lyr : Int),
        metricKnown (normKey s) = false →
        getStatistics r s lyr = (Except.error StatErr.UnknownMetric, r)) ∧
    (∀ (r : clsRasterData) (s : String) (lyr : Int),
        metricKnown (normKey s) = true →
        ¬ (1 ≤ lyr ∧ lyr ≤ (r.m_nLyrs : Int)) →
        getStatistics r s lyr = (Except.error StatErr.LayerOutOfRange, r)) := by
  refine ⟨?_, ?_, ?_⟩
  · intro r s1 s2 lyr hkey
    simp only [getStatistics, hkey]
  · intro r s lyr hunk
    simp only [getStatistics, hunk]
    norm_num
  · intro r s lyr hkn hlyr
    simp only [getStatistics, hkn, if_true]
    rw [if_neg hlyr]

/-- Closed witness for C8: on the literal one-cell raster, the lower-case
name matches the upper-case one, the name BOGUS fails with `UnknownMetric`
leaving the state unchanged, and layer 0 fails with `LayerOutOfRange`
leaving the state unchanged. -/
theorem C8_getStatistics_errors_witness :
    normKey ("mean") = normKey ("MEAN") ∧
    getStatistics witRaster ("mean") 1 = getStatistics witRaster ("MEAN") 1 ∧
    metricKnown (normKey ("BOGUS")) = false ∧
    getStatistics witRaster ("BOGUS") 1
      = (Except.error StatErr.UnknownMetric, witRaster) ∧
    metricKnown (normKey ("MEAN")) = true ∧
    ¬ ((1 : Int) ≤ 0 ∧ (0 : Int) ≤ (witRaster.m_nLyrs : Int)) ∧
    getStatistics witRaster ("MEAN") 0
      = (Except.error StatErr.LayerOutOfRange, witRaster) :=
  ⟨by decide,
   C8_getStatistics_errors.1 witRaster ("mean") ("MEAN") 1 (by decide),
   by decide,
   C8_getStatistics_errors.2.1 witRaster ("BOGUS") 1 (by decide),
   by decide,
   by decide,
   C8_getStatistics_errors.2.2 witRaster ("MEAN") 0 (by decide) (by decide)⟩

/-- C9: computing statistics twice with no intervening mutation yields the
same instance (hence identical values for every metric and layer), the
forced recompute is idempotent as well, and forcing a recompute after a
no-op mutation (a `setValue` outside the footprint) yields exactly the
result of forcing it on the unmutated instance. -/
theorem C9_statistics_idempotence :
    (∀ r : clsRasterData,
      calculateStatistics (calculateStatistics r) = calculateStatistics r) ∧
    (∀ r : clsRasterData,
      updateStatistics (updateStatistics r) = updateStatistics r) ∧
    (∀ (r : clsRasterData) (row col : Int) (v : ℚ) (lyr : Nat),
      (row, col) ∉ r.m_rasterPositionData →
      updateStatistics (setValue r row col v lyr) = updateStatistics r) := by
  refine ⟨?_, ?_, ?_⟩
  · intro r
    by_cases hflag : r.m_statisticsCalculated
    · simp [calculateStatistics, hflag]
    · simp [calculateStatistics, hflag, recomputeStats]
  · intro r
    rfl
  · intro r row col v lyr hmem
    rw [setValue_not_mem_eq r row col v lyr hmem]

/-- Closed witness for C9 at the literal one-cell raster and the
out-of-footprint position (5, 5). -/
theorem C9_statistics_idempotence_witness :
    calculateStatistics (calculateStatistics witRaster)
      = calculateStatistics witRaster ∧
    ((5 : Int), (5 : Int)) ∉ witRaster.m_rasterPositionData ∧
    updateStatistics (setValue witRaster 5 5 42 1)
      = updateStatistics witRaster :=
  ⟨C9_statistics_idempotence.1 witRaster,
   by decide,
   C9_statistics_idempotence.2.2 witRaster 5 5 42 1 (by decide)⟩

/-- C10: the copy constructor (whose inline body in the source runs
`_initialize_raster_class()` then `Copy(another)`) yields an object
observably equal, in every observable component, to default-constructing an
instance and then calling `Copy` on it. -/
theorem C10_copy_constructor_equivalence (r : clsRasterData) :
    copyConstructor r = defaultThenCopy r ∧
    (copyConstructor r).m_headers = (defaultThenCopy r).m_headers ∧
    (copyConstructor r).m_nCells = (defaultThenCopy r).m_nCells ∧
    (copyConstructor r).m_nLyrs = (defaultThenCopy r).m_nLyrs ∧
    (copyConstructor r).m_headers.nodata = (defaultThenCopy r).m_headers.nodata ∧
    (copyConstructor r).m_raster2DData = (defaultThenCopy r).m_raster2DData ∧
    (copyConstructor r).m_rasterPositionData
      = (defaultThenCopy r).m_rasterPositionData ∧
    (copyConstructor r).m_statisticsCalculated
      = (defaultThenCopy r).m_statisticsCalculated ∧
    (copyConstructor r).m_statsMap = (defaultThenCopy r).m_statsMap :=
  ⟨rfl, rfl, rfl, rfl, rfl, rfl, rfl, rfl, rfl⟩

end RasterClass
